import Mathlib

/-!
Shallow embedding of the froide-payment checkout frontend
(frontend/javascript: base.ts, creditcard.ts, paymentrequest.ts,
quickpayment.ts, the SepaDebit class, the DefaultUI class, and the
legacy inline payment.ts), together with theorems checking the
natural-language specification against it.

Conventions of the embedding:
* JavaScript truthiness checks on optional strings (`if (x)`) become
  `strTruthy`: `none` and the empty string are falsy.
* Each handler is a pure function from its configuration and an
  environment record (holding the results of the awaited external
  calls: server fetches and Stripe confirmation calls) to a trace of
  observable events (`Ev`).  A call that can reject is given as an
  `Except JsErr` value in the environment.
* The DOM side of the UI (DefaultUI) is a fold `runUI` of the trace
  over a `UIState` record mirroring the button / loading / container /
  error elements the class manipulates.
-/

namespace FroidePayment

/-- A JavaScript exception value (only its message and whether it is an
`Error` instance are ever inspected by the code). -/
structure JsErr where
  message : String
  isErrorInstance : Bool := true
  deriving Repr, DecidableEq

/-- JS truthiness of a `string | undefined` value: `undefined` and `""`
are falsy. -/
def strTruthy : Option String → Bool
  | none => false
  | some s => !s.isEmpty

/-- JS `a || b` on a `string | undefined` with a string fallback. -/
def orElseStr (a : Option String) (b : String) : String :=
  match a with
  | none => b
  | some s => if s.isEmpty then b else s

/-- PaymentConfig (types.ts): the page-derived configuration snapshot. -/
structure PaymentConfig where
  action : String
  stripepk : String
  clientSecret : Option String := none
  locale : String := "de"
  stripecountry : String := "DE"
  country : Option String := none
  currency : String := "eur"
  label : String := ""
  successurl : String := "/done"
  name : Option String := none
  donation : Bool := false
  sitename : String := ""
  amount : Nat := 0
  interval : Nat := 0
  deriving Repr, DecidableEq

/-- PaymentProcessingResponse (types.ts): the JSON body the server
returns.  Optional booleans are modelled as `Bool` (absent = false,
which matches every truthiness check in the code); optional strings as
`Option String`. -/
structure PaymentProcessingResponse where
  error : Option String := none
  type : String := ""
  requires_action : Bool := false
  requires_confirmation : Bool := false
  payment_intent_client_secret : String := ""
  payment_method : Option String := none
  success : Bool := false
  customer : Bool := false
  successurl : Option String := none
  deriving Repr, DecidableEq

/-- A Stripe error object (`error.message` is `string | undefined`). -/
structure StripeError where
  message : Option String := none
  deriving Repr, DecidableEq

/-- The `paymentIntent` part of a Stripe confirmation result. -/
structure PaymentIntent where
  status : String
  deriving Repr, DecidableEq

/-- Result of `stripe.confirmCardPayment`, `confirmSepaDebitSetup` or
`confirmSepaDebitPayment`: an error object or a payment intent. -/
structure ConfirmResult where
  error : Option StripeError := none
  paymentIntent : Option PaymentIntent := none
  deriving Repr, DecidableEq

/-- The `paymentMethod` part of a `createPaymentMethod` result. -/
structure PaymentMethodObj where
  id : String
  deriving Repr, DecidableEq

/-- Result of `stripe.createPaymentMethod`. -/
structure CreatePaymentMethodResult where
  error : Option StripeError := none
  paymentMethod : Option PaymentMethodObj := none
  deriving Repr, DecidableEq

/-- PaymentMessage (types.ts): the union of JSON bodies sent to the
server via `sendPaymentData`. -/
inductive PaymentMessage where
  | successMsg (success : Bool)
  | paymentMethodId (id : String)
  | sepa (iban : String) (owner_name : String) (extra : List (String × String))
  deriving Repr, DecidableEq

/-- Observable events of a handler run, in program order. -/
inductive Ev where
  | preventDefault
  | setPending (b : Bool)
  | showLoading
  | stopLoading
  | showError (msg : Option String)
  | consoleError (msg : String)
  | createPaymentMethod
  | confirmCard (secret : String)
  | sendPayment (msg : PaymentMessage)
  | completeSheet (status : String)
  | onSuccess
  | redirect (url : String)
  | confirmSepaSetup (secret : String) (payment_method : Option String)
  | confirmSepaPayment (secret : String) (payment_method : Option String)
      (save_payment_method : Bool) (setup_future_usage : Option String)
  | paymentFailed (reason : String)
  | sendPayerData (name : Option String) (email : Option String)
      (city : String) (postcode : String) (country : String)
      (street_address_1 : String) (street_address_2 : String)
  | confirmPayment (secret : String) (return_url : String)
  deriving Repr, DecidableEq

/-! ## DefaultUI (the full-page UI adapter class) -/

/-- The DOM state the DefaultUI class manipulates: the submit button's
`disabled` flag, the `hidden` flags of the loading and content panels,
and the card-errors element. -/
structure UIState where
  buttonDisabled : Bool
  loadingHidden : Bool
  containerHidden : Bool
  errorHidden : Bool
  errorText : String
  deriving Repr, DecidableEq

/-- The page's ready state: button enabled, loading hidden, content
shown, no error displayed. -/
def readyUI : UIState :=
  { buttonDisabled := false, loadingHidden := true, containerHidden := false,
    errorHidden := true, errorText := "" }

namespace DefaultUI

/-- `showLoading()`: unhide the loading panel, hide the content panel. -/
def showLoading (s : UIState) : UIState :=
  { s with loadingHidden := false, containerHidden := true }

/-- `stopLoading()`: hide the loading panel, unhide the content panel. -/
def stopLoading (s : UIState) : UIState :=
  { s with loadingHidden := true, containerHidden := false }

/-- `setPending(pending)`: set the button's `disabled` flag and toggle
the loading panel accordingly. -/
def setPending (s : UIState) (pending : Bool) : UIState :=
  let s := { s with buttonDisabled := pending }
  if pending then showLoading s else stopLoading s

/-- `showError(error)`: unhide the error element, set its text to
`error || 'Card error'`, and leave the pending state. -/
def showError (s : UIState) (msg : Option String) : UIState :=
  let s := { s with errorHidden := false, errorText := orElseStr msg "Card error" }
  setPending s false

end DefaultUI

/-- Interpret one trace event on the DefaultUI state (events that are
not UI-adapter calls leave the DOM state unchanged). -/
def applyUI (s : UIState) : Ev → UIState
  | .setPending b => DefaultUI.setPending s b
  | .showLoading => DefaultUI.showLoading s
  | .stopLoading => DefaultUI.stopLoading s
  | .showError msg => DefaultUI.showError s msg
  | _ => s

/-- Run a trace against the DefaultUI, starting from a given state. -/
def runUI (s : UIState) : List Ev → UIState
  | [] => s
  | e :: rest => runUI (applyUI s e) rest

/-! ## Payment.sendPaymentData (base.ts) -/

/-- The `Response` object returned by `fetch` (only `.json()` is used;
parsing may itself reject). -/
structure FetchResponse where
  json : Except JsErr PaymentProcessingResponse
  deriving Repr

namespace Payment

/-- `Payment.sendPaymentData` (base.ts lines 39-49): awaits the fetch,
then awaits `response.json()`.  There is no catch: a rejected fetch (or
a JSON parse failure) propagates to the caller unchanged. -/
def sendPaymentData (fetchResult : Except JsErr FetchResponse) :
    Except JsErr PaymentProcessingResponse :=
  match fetchResult with
  | .error e => .error e
  | .ok response => response.json

end Payment

/-! ## CreditCard (creditcard.ts) -/

/-- Environment of one card-form submission: the results of the awaited
Stripe calls and of the server round-trip.  `confirmCardPayment` is a
function of the client secret the call is made with. -/
structure CardEnv where
  confirmCardPayment : String → ConfirmResult
  createPaymentMethod : CreatePaymentMethodResult
  serverResponse : Except JsErr PaymentProcessingResponse

namespace CreditCard

/-- The outcome inspection of a `confirmCardPayment` result
(creditcard.ts lines 66-73): error → show it; a succeeded intent →
`onSuccess`; anything else is only logged (`'Missing token!'`). -/
def cardConfirmOutcome (result : ConfirmResult) : List Ev :=
  match result.error with
  | some e => [.consoleError "confirmCardPayment failed", .showError e.message]
  | none =>
    match result.paymentIntent with
    | some pi =>
      if pi.status = "succeeded" then [.onSuccess]
      else [.consoleError "Missing token!"]
    | none => [.consoleError "Missing token!"]

/-- `CreditCard.handleCardPayment` (creditcard.ts lines 55-74):
confirm the card payment against the current `config.clientSecret`;
then inspect the result as in `cardConfirmOutcome`. -/
def handleCardPayment (stripeOk : Bool) (clientSecret : Option String)
    (env : CardEnv) (cardOk : Bool) : List Ev :=
  if !stripeOk || !strTruthy clientSecret then
    [.consoleError "Stripe not initialized"]
  else if !cardOk then []
  else
    let secret := clientSecret.getD ""
    .confirmCard secret :: cardConfirmOutcome (env.confirmCardPayment secret)

/-- `CreditCard.handleCreditCardServerResponse` (creditcard.ts lines
115-127): server error → show it; `requires_action` → overwrite
`config.clientSecret` with the response's secret and re-run
`handleCardPayment`; `success` → `onSuccess`; anything else → nothing. -/
def handleCreditCardServerResponse (stripeOk : Bool) (env : CardEnv)
    (cardOk : Bool) (response : PaymentProcessingResponse) : List Ev :=
  if strTruthy response.error then
    [.consoleError "handleServerResponse failed", .showError response.error]
  else if response.requires_action then
    handleCardPayment stripeOk (some response.payment_intent_client_secret) env cardOk
  else if response.success then [.onSuccess]
  else []

/-- `CreditCard.submit` (creditcard.ts lines 76-113): the card form's
submit handler.  The second component is the uncaught rejection when
the awaited `sendPaymentData` call rejects (there is no try/catch in
this flow). -/
def submit (cardOk stripeOk : Bool) (cfg : PaymentConfig) (env : CardEnv) :
    List Ev × Option JsErr :=
  if !cardOk then ([.consoleError "Card element not initialized"], none)
  else if !strTruthy cfg.clientSecret then ([.preventDefault], none)
  else if !stripeOk then
    ([.preventDefault, .consoleError "Stripe not initialized"], none)
  else if cfg.interval = 0 then
    (.preventDefault :: .setPending true ::
      handleCardPayment stripeOk cfg.clientSecret env cardOk, none)
  else
    let pre := [Ev.preventDefault, .setPending true, .createPaymentMethod]
    match env.createPaymentMethod.error with
    | some e =>
      (pre ++ [.consoleError "createPaymentMethod for cc failed",
        .showError e.message], none)
    | none =>
      match env.createPaymentMethod.paymentMethod with
      | some pm =>
        let pre := pre ++ [Ev.sendPayment (.paymentMethodId pm.id)]
        match env.serverResponse with
        | .error e => (pre, some e)
        | .ok response =>
          (pre ++ handleCreditCardServerResponse stripeOk env cardOk response,
            none)
      | none => (pre, none)

end CreditCard

/-! ## Legacy inline card flow (payment.ts) -/

/-- The inline `handleCardPayment` helper (payment.ts lines 150-165):
like the class variant, but takes the client secret as an argument and
redirects to `dataset.successurl || '/'` on success. -/
def handleCardPaymentInline (clientSecret : String) (cardOk : Bool)
    (env : CardEnv) (successurl : Option String) : List Ev :=
  if !cardOk then []
  else
    let result := env.confirmCardPayment clientSecret
    .confirmCard clientSecret ::
      (match result.error with
      | some e => [.consoleError "confirmCardPayment failed", .showError e.message]
      | none =>
        match result.paymentIntent with
        | some pi =>
          if pi.status = "succeeded" then [.redirect (orElseStr successurl "/")]
          else [.consoleError "Missing token!"]
        | none => [.consoleError "Missing token!"])

/-- The inline `handleServerResponse` helper (payment.ts lines
227-238). -/
def handleServerResponseInline (cardOk : Bool) (env : CardEnv)
    (successurl : Option String) (response : PaymentProcessingResponse) :
    List Ev :=
  if strTruthy response.error then
    [.consoleError "handleServerResponse failed", .showError response.error]
  else if response.requires_action then
    handleCardPaymentInline response.payment_intent_client_secret cardOk env
      successurl
  else if response.success then [.redirect (orElseStr successurl "/")]
  else []

/-- The inline card submit handler (payment.ts lines 195-224):
`clientSecret` and `recurring` come from the form's data attributes. -/
def cardInlineSubmit (clientSecret recurring : Option String) (cardOk : Bool)
    (env : CardEnv) (successurl : Option String) : List Ev × Option JsErr :=
  if !strTruthy clientSecret then ([.preventDefault], none)
  else if !strTruthy recurring then
    (.preventDefault :: .setPending true ::
      handleCardPaymentInline (clientSecret.getD "") cardOk env successurl,
      none)
  else
    let pre := [Ev.preventDefault, .setPending true, .createPaymentMethod]
    match env.createPaymentMethod.error with
    | some e =>
      (pre ++ [.consoleError "createPaymentMethod for cc failed",
        .showError e.message], none)
    | none =>
      match env.createPaymentMethod.paymentMethod with
      | some pm =>
        let pre := pre ++ [Ev.sendPayment (.paymentMethodId pm.id)]
        match env.serverResponse with
        | .error e => (pre, some e)
        | .ok response =>
          (pre ++ handleServerResponseInline cardOk env successurl response,
            none)
      | none => (pre, none)

/-! ## SEPA mandate flows

Two variants exist in the repository: the class `SepaDebit.submit` and
the legacy inline submit handler in payment.ts.  Both are embedded. -/

/-- Environment of one mandate submission: the (possibly rejecting)
initial server round-trip, the Stripe SEPA confirmation result, and the
(possibly rejecting) final `{success: true}` acknowledgment. -/
structure SepaEnv where
  setupResponse : Except JsErr PaymentProcessingResponse
  confirmResult : Except JsErr ConfirmResult
  ackResponse : Except JsErr PaymentProcessingResponse

namespace SepaDebit

/-- The body of the `try` block of `SepaDebit.submit` (SepaDebit class,
lines 237-278): returns the emitted events and the uncaught exception,
if one of the awaited calls rejected.  Note the class variant puts
`setup_future_usage: 'off_session'` into the payment-confirmation data
unconditionally. -/
def tryBody (iban owner : String) (extra : List (String × String))
    (env : SepaEnv) : List Ev × Option JsErr :=
  let send : Ev := .sendPayment (.sepa iban owner extra)
  match env.setupResponse with
  | .error e => ([send], some e)
  | .ok setupResponse =>
    if strTruthy setupResponse.error then
      ([send, .consoleError "SEPA sendPaymentData failed",
        .showError setupResponse.error], none)
    else
      let secret := setupResponse.payment_intent_client_secret
      let confirmEv : Ev :=
        if setupResponse.type != "payment_intent" then
          .confirmSepaSetup secret setupResponse.payment_method
        else
          .confirmSepaPayment secret setupResponse.payment_method
            setupResponse.customer (some "off_session")
      let ack : List Ev → List Ev × Option JsErr := fun pre =>
        match env.ackResponse with
        | .error e => (pre ++ [.sendPayment (.successMsg true)], some e)
        | .ok _ => (pre ++ [.sendPayment (.successMsg true), .onSuccess], none)
      if !secret.isEmpty then
        match env.confirmResult with
        | .error e => ([send, confirmEv], some e)
        | .ok confirmResponse =>
          match confirmResponse.error with
          | some e =>
            ([send, confirmEv, .consoleError "confirm sepa debit failed",
              .showError e.message], none)
          | none => ack [send, confirmEv]
      else ack [send]

/-- `SepaDebit.submit` (SepaDebit class, lines 225-283): prevent the
default submission, guard on initialization, show loading, run the
try block, and catch any exception as the literal
`showError('Network failure.')`. -/
def submit (stripeOk fieldsOk : Bool) (iban owner : String)
    (extra : List (String × String)) (env : SepaEnv) : List Ev :=
  .preventDefault ::
    (if !stripeOk then [.consoleError "Stripe not initialized"]
    else if !fieldsOk then [.consoleError "SEPA fields not initialized"]
    else
      .showLoading ::
        (let body := tryBody iban owner extra env
        match body.2 with
        | some e =>
          body.1 ++ [.consoleError e.message, .showError (some "Network failure.")]
        | none => body.1))

end SepaDebit

/-- The body of the `try` block of the inline SEPA submit handler
(payment.ts lines 296-339).  It differs from the class variant in two
places: `setup_future_usage: 'off_session'` is added only when
`setupResponse.customer` is truthy, and the success transition is a
direct redirect to `dataset.successurl || '/'`. -/
def sepaInlineTryBody (iban owner : String) (extra : List (String × String))
    (successurl : Option String) (env : SepaEnv) : List Ev × Option JsErr :=
  let send : Ev := .sendPayment (.sepa iban owner extra)
  match env.setupResponse with
  | .error e => ([send], some e)
  | .ok setupResponse =>
    if strTruthy setupResponse.error then
      ([send, .consoleError "SEPA sendPaymentData failed",
        .showError setupResponse.error], none)
    else
      let secret := setupResponse.payment_intent_client_secret
      let confirmEv : Ev :=
        if setupResponse.type != "payment_intent" then
          .confirmSepaSetup secret setupResponse.payment_method
        else
          .confirmSepaPayment secret setupResponse.payment_method
            setupResponse.customer
            (if setupResponse.customer then some "off_session" else none)
      let ack : List Ev → List Ev × Option JsErr := fun pre =>
        match env.ackResponse with
        | .error e => (pre ++ [.sendPayment (.successMsg true)], some e)
        | .ok _ =>
          (pre ++ [.sendPayment (.successMsg true),
            .redirect (orElseStr successurl "/")], none)
      if !secret.isEmpty then
        match env.confirmResult with
        | .error e => ([send, confirmEv], some e)
        | .ok confirmResponse =>
          match confirmResponse.error with
          | some e =>
            ([send, confirmEv, .consoleError "confirm sepa debit failed",
              .showError e.message], none)
          | none => ack [send, confirmEv]
      else ack [send]

/-- The inline SEPA submit handler (payment.ts lines 292-344): prevent
default, show loading, run the try block, catch any exception as
`showError('Network failure.')`. -/
def sepaInlineSubmit (iban owner : String) (extra : List (String × String))
    (successurl : Option String) (env : SepaEnv) : List Ev :=
  .preventDefault :: .showLoading ::
    (let body := sepaInlineTryBody iban owner extra successurl env
    match body.2 with
    | some e =>
      body.1 ++ [.consoleError e.message, .showError (some "Network failure.")]
    | none => body.1)

/-! ## PaymentRequestButton (paymentrequest.ts) -/

/-- Environment of one wallet (payment-request) attempt: the (possibly
rejecting) server round-trip of the recurring branch, and the three
possible Stripe confirmation calls (the recurring requires-action
confirm, the one-off initial confirm, and the one-off continuation
confirm). -/
structure PREnv where
  serverResponse : Except JsErr PaymentProcessingResponse
  confirmAction : ConfirmResult
  confirmFirst : ConfirmResult
  confirmSecond : ConfirmResult

namespace PaymentRequestButton

/-- `PaymentRequestButton.onPaymentMethod` (paymentrequest.ts lines
47-109), with the payment-method id `pmId` taken from the sheet event.
Returns the emitted events and the uncaught exception if the awaited
server call rejected. -/
def onPaymentMethod (stripeOk : Bool) (cfg : PaymentConfig) (pmId : String)
    (env : PREnv) : List Ev × Option JsErr :=
  if !stripeOk || !strTruthy cfg.clientSecret then
    ([.consoleError "Stripe not initialized"], none)
  else
    let secret0 := cfg.clientSecret.getD ""
    if cfg.interval > 0 then
      match env.serverResponse with
      | .error e =>
        ([.setPending true, .sendPayment (.paymentMethodId pmId)], some e)
      | .ok response =>
        if strTruthy response.error then
          ([.setPending true, .sendPayment (.paymentMethodId pmId),
            .completeSheet "fail",
            .consoleError "paymentRequest failed sending paymentMethod",
            .showError response.error], none)
        else if response.requires_action then
          let pre := [Ev.setPending true, .sendPayment (.paymentMethodId pmId),
            .confirmCard response.payment_intent_client_secret]
          match env.confirmAction.error with
          | some e =>
            (pre ++ [.completeSheet "fail",
              .consoleError "paymentRequest failed confirmCardPayment recurring",
              .showError e.message], none)
          | none => (pre ++ [.completeSheet "success", .onSuccess], none)
        else
          ([.setPending true, .sendPayment (.paymentMethodId pmId),
            .completeSheet "success", .onSuccess], none)
    else
      let pre := [Ev.setPending true, .confirmCard secret0]
      match env.confirmFirst.error with
      | some e =>
        (pre ++ [.completeSheet "fail",
          .consoleError "paymentRequest failed confirmCardPayment",
          .showError e.message], none)
      | none =>
        let pre := pre ++ [Ev.completeSheet "success"]
        let needsAction : Bool :=
          match env.confirmFirst.paymentIntent with
          | some pi => pi.status == "requires_action"
          | none => false
        if needsAction then
          let pre := pre ++ [Ev.confirmCard secret0]
          match env.confirmSecond.error with
          | some e =>
            (pre ++ [.consoleError "paymentRequest failed confirmCardPayment 2",
              .showError e.message], none)
          | none => (pre ++ [.onSuccess], none)
        else (pre ++ [.onSuccess], none)

end PaymentRequestButton

/-! ## QuickPaymentButtonMethod (quickpayment.ts, express checkout) -/

/-- The address part of the express-checkout billing details. -/
structure BillingAddress where
  city : Option String := none
  postal_code : Option String := none
  country : Option String := none
  line1 : Option String := none
  line2 : Option String := none
  deriving Repr, DecidableEq

/-- The billing details attached to the express-checkout confirm
event. -/
structure BillingDetails where
  name : Option String := none
  email : Option String := none
  address : Option BillingAddress := none
  deriving Repr, DecidableEq

/-- Environment of one express-checkout confirmation: the (possibly
rejecting) payer-data round-trip answered by the surrounding page, and
the destructured `{ error }` of `stripe.confirmPayment`. -/
structure QuickEnv where
  payerResponse : Except JsErr PaymentProcessingResponse
  confirmPaymentError : Option StripeError

namespace QuickPaymentButtonMethod

/-- An optional field of the optional billing address, defaulted to the
empty string (`event.billingDetails.address?.field || ''`). -/
def addrField (bd : BillingDetails) (f : BillingAddress → Option String) : String :=
  orElseStr (bd.address.bind f) ""

/-- The `confirm` callback of the express-checkout element
(quickpayment.ts lines 94-147): validate billing details, show
loading, send payer data to the page, confirm the payment, and
redirect; a rejection of the payer-data promise is caught and shown
only when it is an `Error` instance. -/
def onConfirm (stripeOk elementsOk : Bool) (cfg : PaymentConfig)
    (billingDetails : Option BillingDetails) (env : QuickEnv) : List Ev :=
  if !stripeOk || !elementsOk then
    [.consoleError "Stripe Elements not initialized"]
  else
    match billingDetails with
    | none => [.paymentFailed "fail"]
    | some bd =>
      if !strTruthy bd.email then [.paymentFailed "fail"]
      else
        let payerEv : Ev := .sendPayerData bd.name bd.email
          (addrField bd BillingAddress.city)
          (addrField bd BillingAddress.postal_code)
          (orElseStr (bd.address.bind BillingAddress.country)
            (orElseStr cfg.country "DE"))
          (addrField bd BillingAddress.line1)
          (addrField bd BillingAddress.line2)
        .showLoading ::
          (match env.payerResponse with
          | .error err =>
            payerEv :: .consoleError "Error sending payment data:" ::
              (if err.isErrorInstance then
                [.showError (some (orElseStr (some err.message)
                  "An error occurred while processing the payment."))]
              else [])
          | .ok response =>
            if strTruthy response.error then
              [payerEv, .showError response.error]
            else
              let returnUrl := orElseStr response.successurl cfg.successurl
              payerEv ::
                .confirmPayment response.payment_intent_client_secret returnUrl ::
                  (match env.confirmPaymentError with
                  | some e => [.showError e.message]
                  | none =>
                    [.redirect (orElseStr response.successurl
                      (orElseStr (some cfg.successurl) "/"))]))

end QuickPaymentButtonMethod

/-! ## Trace predicates -/

/-- Does the trace contain a `setPending true` call? -/
def hasSetPendingTrue (t : List Ev) : Bool :=
  t.any fun e => e = .setPending true

/-- Does the trace contain a `showError` call? -/
def hasShowError (t : List Ev) : Bool :=
  t.any fun e => match e with | .showError _ => true | _ => false

/-- Does the trace navigate away (either `onSuccess` or a direct
`document.location.href` assignment)? -/
def hasNavigation (t : List Ev) : Bool :=
  t.any fun e => match e with
    | .onSuccess => true
    | .redirect _ => true
    | _ => false

/-- A run leaves the page stuck pending when it terminates without
navigating away while the submit button is still disabled. -/
def stuckPending (t : List Ev) : Bool :=
  (runUI readyUI t).buttonDisabled && !hasNavigation t

/-- The `confirmCardPayment` secrets used in a trace, in order. -/
def confirmSecrets (t : List Ev) : List String :=
  t.filterMap fun e => match e with | .confirmCard s => some s | _ => none

/-- Number of `onSuccess` calls in a trace. -/
def countOnSuccess (t : List Ev) : Nat :=
  (t.filter fun e => e = .onSuccess).length

/-- Number of `showError` calls in a trace. -/
def countShowError (t : List Ev) : Nat :=
  (t.filter fun e => match e with | .showError _ => true | _ => false).length

/-- Is this event a completion report to the native payment sheet? -/
def isComplete : Ev → Bool
  | .completeSheet _ => true
  | _ => false

/-- Number of `ev.complete` calls in a trace. -/
def countComplete (t : List Ev) : Nat :=
  (t.filter isComplete).length

/-- Is this event a processor confirm call? -/
def isConfirmCall : Ev → Bool
  | .confirmCard _ => true
  | .confirmSepaSetup _ _ => true
  | .confirmSepaPayment _ _ _ _ => true
  | .confirmPayment _ _ => true
  | _ => false

/-- The suffix of a trace after its first `ev.complete` call. -/
def afterFirstComplete : List Ev → List Ev
  | [] => []
  | e :: rest => if isComplete e then rest else afterFirstComplete rest

/-- Does a processor confirm call start after the sheet was already
told its completion status? -/
def confirmAfterComplete (t : List Ev) : Bool :=
  (afterFirstComplete t).any isConfirmCall

/-- The completion statuses reported to the sheet, in order. -/
def completeStatuses (t : List Ev) : List String :=
  t.filterMap fun e => match e with | .completeSheet s => some s | _ => none

/-- A wallet run that terminates by reporting success to the sheet and
then redirecting: its only completion report is `'success'` and its
last event is `onSuccess`. -/
def walletEndsInSuccess (t : List Ev) : Bool :=
  completeStatuses t == ["success"] && t.getLast? == some Ev.onSuccess

/-- The one-off wallet continuation case: the first confirmation
resolved without error but with intent status `requires_action`, so the
handler issues a second confirm call after `ev.complete('success')`. -/
def oneOffContinuation (cfg : PaymentConfig) (env : PREnv) : Bool :=
  cfg.interval == 0 && env.confirmFirst.error.isNone &&
    (match env.confirmFirst.paymentIntent with
    | some pi => pi.status == "requires_action"
    | none => false)

/-- The SEPA confirmation calls of a trace. -/
def sepaConfirms (t : List Ev) : List Ev :=
  t.filter fun e => match e with
    | .confirmSepaSetup _ _ => true
    | .confirmSepaPayment _ _ _ _ => true
    | _ => false

/-- Does the trace signal failure back to the express-checkout
widget? -/
def hasPaymentFailed (t : List Ev) : Bool :=
  t.any fun e => match e with | .paymentFailed _ => true | _ => false

/-- Does the trace dispatch payer data to the surrounding page? -/
def hasSendPayerData (t : List Ev) : Bool :=
  t.any fun e => match e with | .sendPayerData _ _ _ _ _ _ _ => true | _ => false

/-- The DefaultUI state after running a SepaDebit submission trace from
the ready page state. -/
def sepaFinalUI (stripeOk fieldsOk : Bool) (iban owner : String)
    (extra : List (String × String)) (env : SepaEnv) : UIState :=
  runUI readyUI (SepaDebit.submit stripeOk fieldsOk iban owner extra env)

/-- The DefaultUI state after running an inline SEPA submission trace
from the ready page state. -/
def sepaInlineFinalUI (iban owner : String) (extra : List (String × String))
    (successurl : Option String) (env : SepaEnv) : UIState :=
  runUI readyUI (sepaInlineSubmit iban owner extra successurl env)

/-! ## Theorems about the claims -/

/-- Helper: when its guard passes, `handleCardPayment` issues exactly
one `confirmCardPayment` call, with the client secret it was entered
with. -/
theorem confirmSecrets_handleCardPayment (cs : Option String) (env : CardEnv)
    (hs : strTruthy cs = true) :
    confirmSecrets (CreditCard.handleCardPayment true cs env true) =
      [cs.getD ""] := by
  rcases hc : env.confirmCardPayment (cs.getD "") with ⟨err, pi⟩
  rcases err with _ | e
  · rcases pi with _ | p
    · simp [CreditCard.handleCardPayment, CreditCard.cardConfirmOutcome, hs,
        hc, confirmSecrets]
    · by_cases hst : p.status = "succeeded" <;>
        simp [CreditCard.handleCardPayment, CreditCard.cardConfirmOutcome, hs,
          hc, hst, confirmSecrets]
  · simp [CreditCard.handleCardPayment, CreditCard.cardConfirmOutcome, hs, hc,
      confirmSecrets]

/-- C10: for every card-form submit event, if the configured
`clientSecret` is absent the card handler (both the `CreditCard` class
and the inline payment.ts variant) returns immediately after
`event.preventDefault()`: the whole observable trace is the single
`preventDefault` event and nothing is thrown — so the UI is never set
pending, the card is never tokenized, and neither the server nor the
processor is contacted.  This holds for every `interval`, in
particular for recurring flows. -/
theorem c10_card_submit_without_secret_only_prevents_default
    (cfg : PaymentConfig) (env env2 : CardEnv) (stripeOk : Bool)
    (recurring successurl : Option String)
    (h : cfg.clientSecret = none) :
    CreditCard.submit true stripeOk cfg env = ([Ev.preventDefault], none) ∧
    cardInlineSubmit none recurring true env2 successurl =
      ([Ev.preventDefault], none) := by
  constructor
  · simp [CreditCard.submit, h, strTruthy]
  · simp [cardInlineSubmit, strTruthy]

/-- Witness for C10 at a concrete recurring configuration. -/
theorem c10_card_submit_without_secret_only_prevents_default_witness :
    ({ action := "/pay", stripepk := "pk_test", interval := 1 } :
      PaymentConfig).clientSecret = none ∧
    CreditCard.submit true true
        { action := "/pay", stripepk := "pk_test", interval := 1 }
        ⟨fun _ => {}, {}, .ok {}⟩ = ([Ev.preventDefault], none) :=
  ⟨rfl,
    (c10_card_submit_without_secret_only_prevents_default
      { action := "/pay", stripepk := "pk_test", interval := 1 }
      ⟨fun _ => {}, {}, .ok {}⟩ ⟨fun _ => {}, {}, .ok {}⟩ true none none
      rfl).1⟩

/-- Counterexample to C1 as stated: in the one-off card flow a
processor confirmation that resolves with no error but an intent
status other than `'succeeded'` (here `'processing'`) is only logged
(`'Missing token!'`): the run terminates without navigation while the
submit button is still disabled and the loading panel shown, i.e. the
UI is left permanently pending. -/
theorem c1_counterexample_card_left_pending :
    stuckPending (CreditCard.submit true true
      { action := "/pay", stripepk := "pk_test", clientSecret := some "sec_1" }
      ⟨fun _ => { error := none,
                  paymentIntent := some { status := "processing" } }, {},
        .ok {}⟩).1 = true := by decide

/-- C1 amended: in the card flow, pending is cleared on every exit
path that reports an error (`showError` re-enables the submit button
and hides the loading panel) and every success path navigates away;
but the run is left stuck pending exactly when it set the pending
state and then terminated with neither an error display nor a
navigation — which happens on the unhandled paths: a confirmation
resolving with neither an error nor a succeeded intent, a
`createPaymentMethod` result with neither error nor payment method, a
server response carrying none of `error` / `requires_action` /
`success` (or `requires_action` with an empty secret), and a rejected
server fetch. -/
theorem c1_amended_card_pending_characterization (cardOk stripeOk : Bool)
    (cfg : PaymentConfig) (env : CardEnv) :
    stuckPending (CreditCard.submit cardOk stripeOk cfg env).1 =
      (hasSetPendingTrue (CreditCard.submit cardOk stripeOk cfg env).1 &&
        !hasShowError (CreditCard.submit cardOk stripeOk cfg env).1 &&
        !hasNavigation (CreditCard.submit cardOk stripeOk cfg env).1) := by
  have tail : ∀ r : ConfirmResult,
      ((runUI { buttonDisabled := true, loadingHidden := false,
                containerHidden := true, errorHidden := true, errorText := "" }
        (CreditCard.cardConfirmOutcome r)).buttonDisabled &&
          !hasNavigation (CreditCard.cardConfirmOutcome r)) =
        (!hasShowError (CreditCard.cardConfirmOutcome r) &&
          !hasNavigation (CreditCard.cardConfirmOutcome r)) := by
    intro r
    rcases r with ⟨err, pi⟩
    rcases err with _ | e
    · rcases pi with _ | p
      · simp [CreditCard.cardConfirmOutcome, runUI, applyUI,
          DefaultUI.setPending, DefaultUI.showLoading, DefaultUI.stopLoading,
          DefaultUI.showError, hasShowError, hasNavigation]
      · by_cases hst : p.status = "succeeded" <;>
          simp [CreditCard.cardConfirmOutcome, hst, runUI, applyUI,
            DefaultUI.setPending, DefaultUI.showLoading, DefaultUI.stopLoading,
            DefaultUI.showError, hasShowError, hasNavigation]
    · simp [CreditCard.cardConfirmOutcome, runUI, applyUI,
        DefaultUI.setPending, DefaultUI.showLoading, DefaultUI.stopLoading,
        DefaultUI.showError, hasShowError, hasNavigation]
  unfold CreditCard.submit CreditCard.handleCreditCardServerResponse
    CreditCard.handleCardPayment
  repeat' split
  all_goals simp [stuckPending, runUI, applyUI, readyUI, DefaultUI.setPending,
    DefaultUI.showLoading, DefaultUI.stopLoading, DefaultUI.showError,
    hasSetPendingTrue, hasShowError, hasNavigation]
  all_goals
    simpa [hasShowError, hasNavigation, runUI, applyUI] using
      tail (env.confirmCardPayment _)

/-- C3: in the recurring card flow (`interval > 0`), when the server's
response to the `{payment_method_id}` message has `requires_action`
set and carries a new (non-empty) `payment_intent_client_secret` `s`,
the run performs exactly one `confirmCardPayment` call and that call
uses `s` — not the originally configured secret (the witness
instantiates the original as `"sec_1"` and the new one as `"sec_2"`). -/
theorem c3_recurring_card_confirms_with_new_secret
    (cfg : PaymentConfig) (env : CardEnv) (s0 s pm : String)
    (hsec : cfg.clientSecret = some s0) (h0 : s0 ≠ "")
    (hint : cfg.interval ≠ 0)
    (hcp : env.createPaymentMethod =
      { error := none, paymentMethod := some { id := pm } })
    (hresp : env.serverResponse =
      .ok { requires_action := true, payment_intent_client_secret := s })
    (hs : s ≠ "") :
    confirmSecrets (CreditCard.submit true true cfg env).1 = [s] := by
  have h0e : s0.isEmpty = false := by
    rw [Bool.eq_false_iff]
    intro hcon
    exact h0 ((String.isEmpty_iff s0).mp hcon)
  have hse : strTruthy (some s) = true := by
    rw [strTruthy, Bool.not_eq_eq_eq_not, Bool.not_true, Bool.eq_false_iff]
    intro hcon
    exact hs ((String.isEmpty_iff s).mp hcon)
  simp [CreditCard.submit, CreditCard.handleCreditCardServerResponse, hsec,
    hint, hcp, hresp, strTruthy, h0e, confirmSecrets]
  simpa [confirmSecrets] using confirmSecrets_handleCardPayment (some s) env hse

/-- Witness for C3: the original secret is `"sec_1"`, the server
answers `requires_action` with `"sec_2"`, and the confirmation call of
the run uses `"sec_2"`. -/
theorem c3_recurring_card_confirms_with_new_secret_witness :
    confirmSecrets (CreditCard.submit true true
      { action := "/pay", stripepk := "pk_test",
        clientSecret := some "sec_1", interval := 1 }
      ⟨fun _ => {}, { paymentMethod := some { id := "pm_1" } },
        .ok { requires_action := true,
              payment_intent_client_secret := "sec_2" }⟩).1 = ["sec_2"] :=
  c3_recurring_card_confirms_with_new_secret
    { action := "/pay", stripepk := "pk_test",
      clientSecret := some "sec_1", interval := 1 }
    ⟨fun _ => {}, { paymentMethod := some { id := "pm_1" } },
      .ok { requires_action := true,
            payment_intent_client_secret := "sec_2" }⟩
    "sec_1" "sec_2" "pm_1" rfl (by decide) (by decide) rfl rfl (by decide)

/-- C7: in the one-off card flow (`interval = 0`) with a valid
`clientSecret`, when `confirmCardPayment` resolves with no error and a
payment intent of status `'succeeded'`, the run calls `onSuccess`
exactly once and `showError` zero times. -/
theorem c7_oneoff_card_success_redirects_once
    (cfg : PaymentConfig) (env : CardEnv) (s : String)
    (hint : cfg.interval = 0) (hsec : cfg.clientSecret = some s)
    (hne : s ≠ "")
    (hconf : env.confirmCardPayment s =
      { error := none, paymentIntent := some { status := "succeeded" } }) :
    countOnSuccess (CreditCard.submit true true cfg env).1 = 1 ∧
    countShowError (CreditCard.submit true true cfg env).1 = 0 := by
  have hempty : s.isEmpty = false := by
    rw [Bool.eq_false_iff]
    intro hcon
    exact hne ((String.isEmpty_iff s).mp hcon)
  simp [CreditCard.submit, CreditCard.handleCardPayment,
    CreditCard.cardConfirmOutcome, hint, hsec, hconf, strTruthy, hempty,
    countOnSuccess, countShowError]

/-- Witness for C7 at a concrete one-off configuration. -/
theorem c7_oneoff_card_success_redirects_once_witness :
    countOnSuccess (CreditCard.submit true true
      { action := "/pay", stripepk := "pk_test", clientSecret := some "sec_1" }
      ⟨fun _ => { paymentIntent := some { status := "succeeded" } }, {},
        .ok {}⟩).1 = 1 ∧
    countShowError (CreditCard.submit true true
      { action := "/pay", stripepk := "pk_test", clientSecret := some "sec_1" }
      ⟨fun _ => { paymentIntent := some { status := "succeeded" } }, {},
        .ok {}⟩).1 = 0 :=
  c7_oneoff_card_success_redirects_once
    { action := "/pay", stripepk := "pk_test", clientSecret := some "sec_1" }
    ⟨fun _ => { paymentIntent := some { status := "succeeded" } }, {}, .ok {}⟩
    "sec_1" rfl rfl (by decide) rfl

/-- Counterexample to C4 as stated: (a) in the one-off wallet flow,
when the first confirmation resolves without error but with intent
status `requires_action`, the handler reports `complete('success')`
to the sheet and only afterwards starts the continuation confirm call
(which here fails), so the completion is reported before the outcome
of the attempt is known; (b) in the recurring flow a rejected server
fetch escapes the handler and the sheet is never completed at all. -/
theorem c4_counterexample_complete_before_outcome :
    confirmAfterComplete (PaymentRequestButton.onPaymentMethod true
      { action := "/pay", stripepk := "pk_test", clientSecret := some "sec_1" }
      "pm_1"
      ⟨.ok {}, {},
        { error := none, paymentIntent := some { status := "requires_action" } },
        { error := some { message := some "card declined" } }⟩).1 = true ∧
    countComplete (PaymentRequestButton.onPaymentMethod true
      { action := "/pay", stripepk := "pk_test", clientSecret := some "sec_1",
        interval := 1 } "pm_1"
      ⟨.error { message := "Failed to fetch" }, {}, {}, {}⟩).1 = 0 := by
  decide

/-- C4 amended: provided the handler's initialization guard passes and
the awaited server call does not reject, the sheet's completion
callback is invoked exactly once per attempt; and a confirm call is
started after the completion was already reported exactly in the
one-off continuation case (first confirmation without error but with
intent status `requires_action`), where `complete('success')` precedes
the continuation confirm call. -/
theorem c4_amended_sheet_completed_exactly_once (cfg : PaymentConfig)
    (env : PREnv) (pmId : String)
    (hsec : strTruthy cfg.clientSecret = true)
    (hok : cfg.interval = 0 ∨ ∃ r, env.serverResponse = Except.ok r) :
    countComplete (PaymentRequestButton.onPaymentMethod true cfg pmId env).1 = 1 ∧
    confirmAfterComplete
        (PaymentRequestButton.onPaymentMethod true cfg pmId env).1 =
      oneOffContinuation cfg env := by
  rcases env with ⟨sr, ca, cf, cs2⟩
  by_cases hi : cfg.interval > 0
  case pos =>
    have hne : (cfg.interval == 0) = false := by
      simp [Nat.pos_iff_ne_zero.mp hi]
    rcases sr with e | r
    · rcases hok with h0 | ⟨r, hr⟩
      · omega
      · simp at hr
    · by_cases he : strTruthy r.error
      · simp [PaymentRequestButton.onPaymentMethod, hsec, hi, he,
          countComplete, isComplete, confirmAfterComplete, afterFirstComplete,
          isConfirmCall, oneOffContinuation, hne]
      · by_cases hra : r.requires_action
        · rcases hca : ca.error with _ | e2 <;>
            simp [PaymentRequestButton.onPaymentMethod, hsec, hi, he, hra, hca,
              countComplete, isComplete, confirmAfterComplete,
              afterFirstComplete, isConfirmCall, oneOffContinuation, hne]
        · simp [PaymentRequestButton.onPaymentMethod, hsec, hi, he, hra,
            countComplete, isComplete, confirmAfterComplete, afterFirstComplete,
            isConfirmCall, oneOffContinuation, hne]
  case neg =>
    have hi0 : cfg.interval = 0 := Nat.eq_zero_of_not_pos hi
    rcases hcf : cf with ⟨cfErr, cfPi⟩
    rcases cfErr with _ | e
    · rcases cfPi with _ | p
      · simp [PaymentRequestButton.onPaymentMethod, hsec, hi0, countComplete,
          isComplete, confirmAfterComplete, afterFirstComplete, isConfirmCall,
          oneOffContinuation]
      · by_cases hst : p.status = "requires_action"
        · rcases h2 : cs2.error with _ | e2 <;>
            simp [PaymentRequestButton.onPaymentMethod, hsec, hi0, hst, h2,
              countComplete, isComplete, confirmAfterComplete,
              afterFirstComplete, isConfirmCall, oneOffContinuation]
        · simp [PaymentRequestButton.onPaymentMethod, hsec, hi0, hst,
            countComplete, isComplete, confirmAfterComplete, afterFirstComplete,
            isConfirmCall, oneOffContinuation]
    · simp [PaymentRequestButton.onPaymentMethod, hsec, hi0, countComplete,
        isComplete, confirmAfterComplete, afterFirstComplete, isConfirmCall,
        oneOffContinuation]

/-- Witness for C4 (amended) on a concrete recurring happy-path run. -/
theorem c4_amended_sheet_completed_exactly_once_witness :
    countComplete (PaymentRequestButton.onPaymentMethod true
      { action := "/pay", stripepk := "pk_test", clientSecret := some "sec_1",
        interval := 1 } "pm_1"
      ⟨.ok { success := true }, {}, {}, {}⟩).1 = 1 ∧
    confirmAfterComplete (PaymentRequestButton.onPaymentMethod true
      { action := "/pay", stripepk := "pk_test", clientSecret := some "sec_1",
        interval := 1 } "pm_1"
      ⟨.ok { success := true }, {}, {}, {}⟩).1 =
      oneOffContinuation
        { action := "/pay", stripepk := "pk_test", clientSecret := some "sec_1",
          interval := 1 }
        ⟨.ok { success := true }, {}, {}, {}⟩ :=
  c4_amended_sheet_completed_exactly_once
    { action := "/pay", stripepk := "pk_test", clientSecret := some "sec_1",
      interval := 1 }
    ⟨.ok { success := true }, {}, {}, {}⟩ "pm_1" (by decide)
    (Or.inr ⟨{ success := true }, rfl⟩)

/-- Counterexample to C9 as stated: a recurring-flow server response
without an error field but with `requires_action` set does not always
end in a success redirect — when the subsequent confirmation fails the
handler reports `complete('fail')` and shows the error instead. -/
theorem c9_counterexample_requires_action_failure :
    walletEndsInSuccess (PaymentRequestButton.onPaymentMethod true
      { action := "/pay", stripepk := "pk_test", clientSecret := some "sec_1",
        interval := 1 } "pm_1"
      ⟨.ok { requires_action := true,
             payment_intent_client_secret := "sec_2" },
        { error := some { message := some "card declined" } }, {}, {}⟩).1
      = false ∧
    ({ requires_action := true, payment_intent_client_secret := "sec_2" } :
      PaymentProcessingResponse).error = none := by
  decide

/-- C9 amended: in the recurring wallet flow, for every server
response without an error field — provided that, when the response
sets `requires_action`, the subsequent confirmation resolves without
error — the handler ends by reporting `complete('success')` (its only
completion report) and then calling `onSuccess`, even when the
response does not carry `success: true`; in particular a response with
none of `error`, `requires_action`, `success` terminates in a success
redirect unconditionally. -/
theorem c9_amended_recurring_wallet_ends_in_success (cfg : PaymentConfig)
    (env : PREnv) (pmId : String) (r : PaymentProcessingResponse)
    (hsec : strTruthy cfg.clientSecret = true) (hi : cfg.interval > 0)
    (hr : env.serverResponse = .ok r) (he : strTruthy r.error = false)
    (hact : r.requires_action = true → env.confirmAction.error = none) :
    walletEndsInSuccess
      (PaymentRequestButton.onPaymentMethod true cfg pmId env).1 = true := by
  by_cases hra : r.requires_action
  · have hca := hact hra
    simp [PaymentRequestButton.onPaymentMethod, hsec, hi, hr, he, hra, hca,
      walletEndsInSuccess, completeStatuses]
  · simp [PaymentRequestButton.onPaymentMethod, hsec, hi, hr, he, hra,
      walletEndsInSuccess, completeStatuses]

/-- Witness for C9 (amended) on a concrete response carrying none of
`error`, `requires_action`, `success`. -/
theorem c9_amended_recurring_wallet_ends_in_success_witness :
    walletEndsInSuccess (PaymentRequestButton.onPaymentMethod true
      { action := "/pay", stripepk := "pk_test", clientSecret := some "sec_1",
        interval := 1 } "pm_1" ⟨.ok {}, {}, {}, {}⟩).1 = true :=
  c9_amended_recurring_wallet_ends_in_success
    { action := "/pay", stripepk := "pk_test", clientSecret := some "sec_1",
      interval := 1 }
    ⟨.ok {}, {}, {}, {}⟩ "pm_1" {} (by decide) (by decide) rfl (by decide)
    (fun h => nomatch h)

/-- Helper: `runUI` distributes over trace concatenation. -/
theorem runUI_append (s : UIState) (a b : List Ev) :
    runUI s (a ++ b) = runUI (runUI s a) b := by
  induction a generalizing s with
  | nil => rfl
  | cons x xs ih => simp [runUI, ih]

/-- Counterexample to C2 as stated: in the class-based `SepaDebit`
flow, a `payment_intent` response with `customer = false` is still
confirmed with `setup_future_usage: 'off_session'` in the
payment-confirmation data, so the inclusion is not conditional on
`response.customer` there. -/
theorem c2_counterexample_sfu_without_customer :
    sepaConfirms (SepaDebit.submit true true "DE89370400440532013000"
      "Jane Doe" []
      ⟨.ok { type := "payment_intent", payment_intent_client_secret := "sec_p",
             payment_method := some "pm_sepa", customer := false },
        .ok {}, .ok {}⟩) =
      [Ev.confirmSepaPayment "sec_p" (some "pm_sepa") false
        (some "off_session")] := by
  decide

/-- C2 amended: in both mandate variants, for every server response
without error that carries a non-empty secret, exactly one SEPA
confirmation call is made: `confirmSepaDebitSetup` with the response's
`payment_method` when `response.type` is not `'payment_intent'`, and
`confirmSepaDebitPayment` otherwise; in the inline payment.ts variant
the confirmation data includes `setup_future_usage: 'off_session'`
exactly when `response.customer` is true, while the class-based
`SepaDebit` variant includes it unconditionally. -/
theorem c2_amended_sepa_confirmation_routing
    (resp : PaymentProcessingResponse) (env : SepaEnv) (iban owner : String)
    (extra : List (String × String)) (successurl : Option String)
    (hsetup : env.setupResponse = .ok resp)
    (herr : strTruthy resp.error = false)
    (hsec : resp.payment_intent_client_secret.isEmpty = false) :
    sepaConfirms (SepaDebit.submit true true iban owner extra env) =
      [if resp.type != "payment_intent" then
        Ev.confirmSepaSetup resp.payment_intent_client_secret
          resp.payment_method
      else
        Ev.confirmSepaPayment resp.payment_intent_client_secret
          resp.payment_method resp.customer (some "off_session")] ∧
    sepaConfirms (sepaInlineSubmit iban owner extra successurl env) =
      [if resp.type != "payment_intent" then
        Ev.confirmSepaSetup resp.payment_intent_client_secret
          resp.payment_method
      else
        Ev.confirmSepaPayment resp.payment_intent_client_secret
          resp.payment_method resp.customer
          (if resp.customer then some "off_session" else none)] := by
  constructor
  · simp only [SepaDebit.submit, SepaDebit.tryBody, hsetup, herr, hsec]
    repeat' split
    all_goals simp_all [sepaConfirms]
  · simp only [sepaInlineSubmit, sepaInlineTryBody, hsetup, herr, hsec]
    repeat' split
    all_goals simp_all [sepaConfirms]

/-- Witness for C2 (amended) on a concrete `payment_intent` response
with `customer = true`: both variants confirm via
`confirmSepaDebitPayment` with `setup_future_usage` present. -/
theorem c2_amended_sepa_confirmation_routing_witness :
    sepaConfirms (SepaDebit.submit true true "DE89370400440532013000"
      "Jane Doe" []
      ⟨.ok { type := "payment_intent", payment_intent_client_secret := "sec_p",
             payment_method := some "pm_sepa", customer := true },
        .ok {}, .ok {}⟩) =
      [if ("payment_intent" : String) != "payment_intent" then
        Ev.confirmSepaSetup "sec_p" (some "pm_sepa")
      else
        Ev.confirmSepaPayment "sec_p" (some "pm_sepa") true
          (some "off_session")] :=
  (c2_amended_sepa_confirmation_routing
    { type := "payment_intent", payment_intent_client_secret := "sec_p",
      payment_method := some "pm_sepa", customer := true }
    ⟨.ok { type := "payment_intent", payment_intent_client_secret := "sec_p",
           payment_method := some "pm_sepa", customer := true },
      .ok {}, .ok {}⟩
    "DE89370400440532013000" "Jane Doe" [] none rfl (by decide)
    (by decide)).1

/-- C8: in both mandate submission variants, every exception thrown
inside the submission sequence (a rejected initial fetch, a rejected
confirmation call, or a rejected final acknowledgment) is caught and
results in the literal displayed message `"Network failure."`, with
the DefaultUI returned to non-pending: the submit button re-enabled
and the loading panel hidden (content shown again). -/
theorem c8_sepa_exception_shows_network_failure (iban owner : String)
    (extra : List (String × String)) (env : SepaEnv)
    (successurl : Option String)
    (hthrow : (SepaDebit.tryBody iban owner extra env).2.isSome = true)
    (hthrow2 :
      (sepaInlineTryBody iban owner extra successurl env).2.isSome = true) :
    (sepaFinalUI true true iban owner extra env).errorText =
        "Network failure." ∧
    (sepaFinalUI true true iban owner extra env).errorHidden = false ∧
    (sepaFinalUI true true iban owner extra env).buttonDisabled = false ∧
    (sepaFinalUI true true iban owner extra env).loadingHidden = true ∧
    (sepaInlineFinalUI iban owner extra successurl env).errorText =
        "Network failure." ∧
    (sepaInlineFinalUI iban owner extra successurl env).buttonDisabled =
        false ∧
    (sepaInlineFinalUI iban owner extra successurl env).loadingHidden =
        true := by
  have hni : ("Network failure.").isEmpty = false := by decide
  rcases hb : SepaDebit.tryBody iban owner extra env with ⟨t, th⟩
  rcases hb2 : sepaInlineTryBody iban owner extra successurl env with ⟨t2, th2⟩
  rcases th with _ | e
  · rw [hb] at hthrow
    simp at hthrow
  rcases th2 with _ | e2
  · rw [hb2] at hthrow2
    simp at hthrow2
  refine ⟨?_, ?_, ?_, ?_, ?_, ?_, ?_⟩ <;>
    simp [sepaFinalUI, sepaInlineFinalUI, SepaDebit.submit, sepaInlineSubmit,
      hb, hb2, runUI_append, runUI, applyUI, DefaultUI.showError,
      DefaultUI.setPending, DefaultUI.showLoading, DefaultUI.stopLoading,
      orElseStr, hni]

/-- Witness for C8: a run whose initial fetch rejects ends with the
error text `"Network failure."`, the button enabled and loading
hidden, in both variants. -/
theorem c8_sepa_exception_shows_network_failure_witness :
    (sepaFinalUI true true "DE89370400440532013000" "Jane Doe" []
      ⟨.error { message := "Failed to fetch" }, .ok {}, .ok {}⟩).errorText =
        "Network failure." ∧
    (sepaFinalUI true true "DE89370400440532013000" "Jane Doe" []
      ⟨.error { message := "Failed to fetch" }, .ok {}, .ok {}⟩).errorHidden =
        false ∧
    (sepaFinalUI true true "DE89370400440532013000" "Jane Doe" []
      ⟨.error { message := "Failed to fetch" }, .ok {}, .ok {}⟩).buttonDisabled
        = false ∧
    (sepaFinalUI true true "DE89370400440532013000" "Jane Doe" []
      ⟨.error { message := "Failed to fetch" }, .ok {}, .ok {}⟩).loadingHidden
        = true ∧
    (sepaInlineFinalUI "DE89370400440532013000" "Jane Doe" [] none
      ⟨.error { message := "Failed to fetch" }, .ok {}, .ok {}⟩).errorText =
        "Network failure." ∧
    (sepaInlineFinalUI "DE89370400440532013000" "Jane Doe" [] none
      ⟨.error { message := "Failed to fetch" }, .ok {}, .ok {}⟩).buttonDisabled
        = false ∧
    (sepaInlineFinalUI "DE89370400440532013000" "Jane Doe" [] none
      ⟨.error { message := "Failed to fetch" }, .ok {}, .ok {}⟩).loadingHidden
        = true :=
  c8_sepa_exception_shows_network_failure "DE89370400440532013000" "Jane Doe"
    [] ⟨.error { message := "Failed to fetch" }, .ok {}, .ok {}⟩ none
    (by decide) (by decide)

/-- Counterexample to C5 as stated: `sendPaymentData` contains no
catch, so a rejected fetch propagates unchanged — the caller receives
the raw transport exception (`"TypeError: Failed to fetch"`), not a
`"Network failure"` error; and in the card flow, which awaits
`sendPaymentData` without a try/catch, the rejection escapes the
handler and no error message is shown at all. -/
theorem c5_counterexample_raw_transport_error_propagates :
    Payment.sendPaymentData
        (Except.error { message := "TypeError: Failed to fetch" }) =
      Except.error { message := "TypeError: Failed to fetch" } ∧
    hasShowError (CreditCard.submit true true
      { action := "/pay", stripepk := "pk_test", clientSecret := some "sec_1",
        interval := 1 }
      ⟨fun _ => {}, { paymentMethod := some { id := "pm_1" } },
        .error { message := "TypeError: Failed to fetch" }⟩).1 = false ∧
    (CreditCard.submit true true
      { action := "/pay", stripepk := "pk_test", clientSecret := some "sec_1",
        interval := 1 }
      ⟨fun _ => {}, { paymentMethod := some { id := "pm_1" } },
        .error { message := "TypeError: Failed to fetch" }⟩).2 =
      some { message := "TypeError: Failed to fetch" } := by
  refine ⟨rfl, by decide, by decide⟩

/-- C5 amended: `sendPaymentData` itself propagates a transport
rejection unchanged to its caller; the `"Network failure."` message is
produced only by the mandate flow's catch block, while the recurring
card flow awaits `sendPaymentData` without a catch, so there the
rejection escapes and no message is displayed. -/
theorem c5_amended_transport_failure_handling (e : JsErr)
    (iban owner : String) (extra : List (String × String)) (env : SepaEnv)
    (cfg : PaymentConfig) (cenv : CardEnv) (s0 pm : String)
    (hsetup : env.setupResponse = .error e)
    (hsec : cfg.clientSecret = some s0) (h0 : s0 ≠ "")
    (hint : cfg.interval ≠ 0)
    (hcp : cenv.createPaymentMethod =
      { error := none, paymentMethod := some { id := pm } })
    (hsr : cenv.serverResponse = .error e) :
    Payment.sendPaymentData (.error e) = .error e ∧
    (sepaFinalUI true true iban owner extra env).errorText =
      "Network failure." ∧
    (CreditCard.submit true true cfg cenv).2 = some e ∧
    hasShowError (CreditCard.submit true true cfg cenv).1 = false := by
  have h0e : s0.isEmpty = false := by
    rw [Bool.eq_false_iff]
    intro hcon
    exact h0 ((String.isEmpty_iff s0).mp hcon)
  have hni : ("Network failure.").isEmpty = false := by decide
  refine ⟨rfl, ?_, ?_, ?_⟩
  · simp [sepaFinalUI, SepaDebit.submit, SepaDebit.tryBody, hsetup,
      runUI_append, runUI, applyUI, DefaultUI.showError, DefaultUI.setPending,
      DefaultUI.showLoading, DefaultUI.stopLoading, orElseStr, hni]
  · simp [CreditCard.submit, hsec, hint, hcp, hsr, strTruthy, h0e]
  · simp [CreditCard.submit, hsec, hint, hcp, hsr, strTruthy, h0e,
      hasShowError]

/-- Witness for C5 (amended) at a concrete rejected fetch. -/
theorem c5_amended_transport_failure_handling_witness :
    Payment.sendPaymentData (.error { message := "Failed to fetch" }) =
      .error { message := "Failed to fetch" } ∧
    (sepaFinalUI true true "DE89370400440532013000" "Jane Doe" []
      ⟨.error { message := "Failed to fetch" }, .ok {}, .ok {}⟩).errorText =
      "Network failure." ∧
    (CreditCard.submit true true
      { action := "/pay", stripepk := "pk_test", clientSecret := some "sec_1",
        interval := 1 }
      ⟨fun _ => {}, { paymentMethod := some { id := "pm_1" } },
        .error { message := "Failed to fetch" }⟩).2 =
      some { message := "Failed to fetch" } ∧
    hasShowError (CreditCard.submit true true
      { action := "/pay", stripepk := "pk_test", clientSecret := some "sec_1",
        interval := 1 }
      ⟨fun _ => {}, { paymentMethod := some { id := "pm_1" } },
        .error { message := "Failed to fetch" }⟩).1 = false :=
  c5_amended_transport_failure_handling { message := "Failed to fetch" }
    "DE89370400440532013000" "Jane Doe" []
    ⟨.error { message := "Failed to fetch" }, .ok {}, .ok {}⟩
    { action := "/pay", stripepk := "pk_test", clientSecret := some "sec_1",
      interval := 1 }
    ⟨fun _ => {}, { paymentMethod := some { id := "pm_1" } },
      .error { message := "Failed to fetch" }⟩
    "sec_1" "pm_1" rfl rfl (by decide) (by decide) rfl rfl

/-- Counterexample to C6 as stated: a confirm event whose billing
details carry an email but no billing name is not rejected — the
handler neither signals failure to the widget nor aborts, and it does
dispatch the payer data (with the absent name passed through). -/
theorem c6_counterexample_missing_name_not_rejected :
    hasPaymentFailed (QuickPaymentButtonMethod.onConfirm true true
      { action := "/pay", stripepk := "pk_test" }
      (some { name := none, email := some "jane@example.org" })
      ⟨.ok { payment_intent_client_secret := "sec_q" }, none⟩) = false ∧
    hasSendPayerData (QuickPaymentButtonMethod.onConfirm true true
      { action := "/pay", stripepk := "pk_test" }
      (some { name := none, email := some "jane@example.org" })
      ⟨.ok { payment_intent_client_secret := "sec_q" }, none⟩) = true := by
  decide

/-- C6 amended: the express-checkout confirm handler aborts with
`paymentFailed({reason: 'fail'})` — dispatching no payer data and
contacting no server — exactly when the billing details are absent or
the billing email is missing/empty; a missing billing *name* does not
abort (the payer data is sent with the absent name).  In this flow the
engine's `sendPaymentData` is never invoked at all: payer data travels
via the page's `paymentConfirm` event. -/
theorem c6_amended_confirm_validation (cfg : PaymentConfig)
    (billingDetails : Option BillingDetails) (env : QuickEnv)
    (h : strTruthy (billingDetails.bind BillingDetails.email) = false) :
    QuickPaymentButtonMethod.onConfirm true true cfg billingDetails env =
      [Ev.paymentFailed "fail"] := by
  rcases billingDetails with _ | bd
  · simp [QuickPaymentButtonMethod.onConfirm]
  · simp only [Option.some_bind] at h
    simp [QuickPaymentButtonMethod.onConfirm, h]

/-- Witness for C6 (amended): billing details present but with no
email. -/
theorem c6_amended_confirm_validation_witness :
    QuickPaymentButtonMethod.onConfirm true true
      { action := "/pay", stripepk := "pk_test" }
      (some { name := some "Jane Doe", email := none }) ⟨.ok {}, none⟩ =
      [Ev.paymentFailed "fail"] :=
  c6_amended_confirm_validation { action := "/pay", stripepk := "pk_test" }
    (some { name := some "Jane Doe", email := none }) ⟨.ok {}, none⟩
    (by decide)

end FroidePayment
